import Mathlib

/-!
Verification of the pdf-ai-annotator pipeline.

We give a shallow embedding of the two drafts of the script
(`src/pdf_ai_annotator.py` and `src/pdf-ai-annotator.py`).  The effectful
body of `process_file` is modelled as a pure function producing the list of
observable events (upload, open, metadata writes, confirmation prompts,
save, remove) that the Python code would perform, parameterised by the
AI-returned annotation and the operator's answers to the two confirmation
prompts.  The intake loop of `main` is modelled as a pure function over an
abstract per-file attempt that may fail, mirroring the try/except in the
loop body.
-/

/-- The structured result contract returned by the AI collaborator
(`class PdfAiAnnotations(BaseModel)` in src/pdf_ai_annotator.py). -/
structure PdfAiAnnotations where
  summary : String
  keywords : String
  title : String
  filename : String
deriving DecidableEq, Repr

/-- Python's `s[-4:]`: the last four characters of `s`, or all of `s`
when it is shorter than four characters. -/
def pySliceLast4 (s : String) : String :=
  String.mk (s.data.drop (s.data.length - 4))

/-- Python's `str.isspace()` character class — exactly the set that
`str.strip()` removes: ASCII 0x09-0x0D (tab, LF, VT, FF, CR),
0x1C-0x1F (FS, GS, RS, US) and the space 0x20, plus NEL (0x85),
NBSP (0xA0), the Ogham space mark (0x1680), the EN QUAD..HAIR SPACE
range (0x2000-0x200A), the line and paragraph separators (0x2028,
0x2029), the narrow no-break space (0x202F), the medium mathematical
space (0x205F) and the ideographic space (0x3000). -/
def pyIsSpace (c : Char) : Bool :=
  decide ((0x09 ≤ c.toNat ∧ c.toNat ≤ 0x0D) ∨
    (0x1C ≤ c.toNat ∧ c.toNat ≤ 0x20) ∨
    c.toNat = 0x85 ∨ c.toNat = 0xA0 ∨ c.toNat = 0x1680 ∨
    (0x2000 ≤ c.toNat ∧ c.toNat ≤ 0x200A) ∨
    c.toNat = 0x2028 ∨ c.toNat = 0x2029 ∨ c.toNat = 0x202F ∨
    c.toNat = 0x205F ∨ c.toNat = 0x3000)

/-- Python's `str.strip()`: drop the leading and trailing characters of
the `str.isspace()` class. -/
def pyStrip (s : String) : String :=
  String.mk (((s.data.dropWhile pyIsSpace).reverse.dropWhile pyIsSpace).reverse)

/-- Python's `str.lower()` restricted to ASCII case mapping. -/
def pyLower (s : String) : String :=
  String.mk (s.data.map Char.toLower)

/-- The confirmation test of the code: `answer.strip().lower() != 'y'`
skips, so an answer confirms exactly when this returns `true`. -/
def confirms (answer : String) : Bool :=
  pyLower (pyStrip answer) == "y"

/-- Does the string start with a slash (`b.startswith('/')`)? -/
def strStartsWithSlash (s : String) : Bool :=
  match s.data with
  | [] => false
  | c :: _ => c == '/'

/-- Does the string end with a slash? -/
def strEndsWithSlash (s : String) : Bool :=
  match s.data.getLast? with
  | some c => c == '/'
  | none => false

/-- POSIX `os.path.join` for two components, as CPython implements it:
an absolute second component discards the first; otherwise a single `/`
separator is inserted unless the first component is empty or already ends
with `/`. -/
def os_path_join (a b : String) : String :=
  if strStartsWithSlash b then b
  else if a = "" ∨ strEndsWithSlash a then a ++ b
  else a ++ "/" ++ b

/-- The observable events of one run of `process_file`. -/
inductive Event where
  /-- `client.files.upload(file=input_file_path)` -/
  | upload (path : String)
  /-- the `print("Error: ...")` in either validation branch -/
  | reportInvalid
  /-- `pikepdf.open(input_file_path)` -/
  | openPdf (path : String)
  /-- `meta[key] = value` inside `pdf.open_metadata()` -/
  | setMeta (key value : String)
  /-- the save confirmation `input(...)` prompt in cautious mode -/
  | askSave (dest : String)
  /-- `pdf.save(output_file_path)` -/
  | save (dest : String)
  /-- the delete confirmation `input(...)` prompt in cautious mode -/
  | askDelete (src : String)
  /-- `os.remove(input_file_path)` -/
  | remove (path : String)
deriving DecidableEq, Repr

/-- Event trace of `process_file` from src/pdf_ai_annotator.py (the newer
draft, with the extension check at line 157).  `result` is the parsed
Gemini response; `saveAnswer`/`deleteAnswer` are the operator's replies to
the two cautious-mode prompts (unused when `cautious = false`). -/
def process_file (input_file_path output_dir : String) (cautious : Bool)
    (result : PdfAiAnnotations) (saveAnswer deleteAnswer : String) :
    List Event :=
  let summary := result.summary
  let keywords := result.keywords
  let new_filename := result.filename
  let title := result.title
  Event.upload input_file_path ::
    (if summary = "" ∨ keywords = "" ∨ new_filename = "" ∨ title = "" then
      [Event.reportInvalid]
    else if pySliceLast4 new_filename ≠ ".pdf" then
      [Event.reportInvalid]
    else
      Event.openPdf input_file_path ::
      Event.setMeta "dc:title" title ::
      Event.setMeta "dc:description" summary ::
      Event.setMeta "dc:subject" keywords ::
        (let output_file_path := os_path_join output_dir new_filename
         let afterMeta :=
           Event.save output_file_path ::
             (if cautious then
               Event.askDelete input_file_path ::
                 (if confirms deleteAnswer then
                   [Event.remove input_file_path]
                 else [])
             else
               [Event.remove input_file_path])
         if cautious then
           Event.askSave output_file_path ::
             (if confirms saveAnswer then afterMeta else [])
         else
           afterMeta))

/-- Event trace of `process_file` from src/pdf-ai-annotator.py (the older
draft).  Identical to the newer draft except that it performs only the
emptiness check: it has no `.pdf` extension check. -/
def process_file_draft (input_file_path output_dir : String) (cautious : Bool)
    (result : PdfAiAnnotations) (saveAnswer deleteAnswer : String) :
    List Event :=
  let summary := result.summary
  let keywords := result.keywords
  let new_filename := result.filename
  let title := result.title
  Event.upload input_file_path ::
    (if summary = "" ∨ keywords = "" ∨ new_filename = "" ∨ title = "" then
      [Event.reportInvalid]
    else
      Event.openPdf input_file_path ::
      Event.setMeta "dc:title" title ::
      Event.setMeta "dc:description" summary ::
      Event.setMeta "dc:subject" keywords ::
        (let output_file_path := os_path_join output_dir new_filename
         let afterMeta :=
           Event.save output_file_path ::
             (if cautious then
               Event.askDelete input_file_path ::
                 (if confirms deleteAnswer then
                   [Event.remove input_file_path]
                 else [])
             else
               [Event.remove input_file_path])
         if cautious then
           Event.askSave output_file_path ::
             (if confirms saveAnswer then afterMeta else [])
         else
           afterMeta))

/-- The spec's notion of "filename ends with the literal suffix `.pdf`"
(case-sensitive literal suffix match). -/
def endsWithPdf (s : String) : Prop :=
  ∃ t : String, s = t ++ ".pdf"

/-- The spec's validity predicate: all four fields non-empty and the
filename ends with `.pdf`. -/
def specValid (r : PdfAiAnnotations) : Prop :=
  r.summary ≠ "" ∧ r.keywords ≠ "" ∧ r.title ≠ "" ∧ r.filename ≠ "" ∧
    endsWithPdf r.filename

/-- The Validation Gate exactly as the code tests it (emptiness check,
then the `new_filename[-4:] != ".pdf"` check). -/
def validationAccepts (r : PdfAiAnnotations) : Bool :=
  if r.summary = "" ∨ r.keywords = "" ∨ r.filename = "" ∨ r.title = "" then
    false
  else if pySliceLast4 r.filename ≠ ".pdf" then
    false
  else
    true

/-- Python's `s[-4:] == ".pdf"` test agrees with the literal-suffix
reading: a slice of the last four characters equals `".pdf"` exactly when
the string ends with `".pdf"`. -/
theorem pySliceLast4_eq_iff_endsWithPdf (s : String) :
    pySliceLast4 s = ".pdf" ↔ endsWithPdf s := by
  rcases s with ⟨l⟩
  constructor
  · intro h
    have hdata : l.drop (l.length - 4) = ['.', 'p', 'd', 'f'] := by
      have := congrArg String.data h
      simpa [pySliceLast4] using this
    refine ⟨String.mk (l.take (l.length - 4)), ?_⟩
    have : l = l.take (l.length - 4) ++ ['.', 'p', 'd', 'f'] := by
      conv_lhs => rw [← List.take_append_drop (l.length - 4) l]
      rw [hdata]
    calc String.mk l
        = String.mk (l.take (l.length - 4) ++ ['.', 'p', 'd', 'f']) := by
          rw [← this]
      _ = String.mk (l.take (l.length - 4)) ++ ".pdf" := rfl
  · rintro ⟨⟨t⟩, ht⟩
    have hdata : l = t ++ ['.', 'p', 'd', 'f'] := by
      have := congrArg String.data ht
      simpa using this
    subst hdata
    have hlen : (t ++ ['.', 'p', 'd', 'f']).length - 4 = t.length := by
      simp
    simp only [pySliceLast4, hlen]
    rw [List.drop_left]

/-- A string ending in `".pdf"` is non-empty. -/
theorem endsWithPdf_ne_empty {s : String} (h : endsWithPdf s) : s ≠ "" := by
  rcases h with ⟨⟨t⟩, rfl⟩
  intro hcontra
  have := congrArg String.data hcontra
  simp at this

/-- The spec validity predicate matches the code's two checks. -/
theorem specValid_iff_checks (r : PdfAiAnnotations) :
    specValid r ↔
      (¬ (r.summary = "" ∨ r.keywords = "" ∨ r.filename = "" ∨ r.title = "")
        ∧ pySliceLast4 r.filename = ".pdf") := by
  constructor
  · rintro ⟨h1, h2, h3, h4, h5⟩
    refine ⟨?_, (pySliceLast4_eq_iff_endsWithPdf _).2 h5⟩
    push_neg
    exact ⟨h1, h2, h4, h3⟩
  · rintro ⟨hne, hslice⟩
    push_neg at hne
    obtain ⟨h1, h2, h4, h3⟩ := hne
    exact ⟨h1, h2, h3, h4, (pySliceLast4_eq_iff_endsWithPdf _).1 hslice⟩

/-- Trace shape when some field is empty. -/
theorem process_file_empty_field (input_file_path output_dir : String)
    (cautious : Bool) (r : PdfAiAnnotations) (sa da : String)
    (h : r.summary = "" ∨ r.keywords = "" ∨ r.filename = "" ∨ r.title = "") :
    process_file input_file_path output_dir cautious r sa da =
      [Event.upload input_file_path, Event.reportInvalid] := by
  simp only [process_file, if_pos h]

/-- Trace shape when no field is empty but the extension check fails. -/
theorem process_file_bad_extension (input_file_path output_dir : String)
    (cautious : Bool) (r : PdfAiAnnotations) (sa da : String)
    (h : ¬ (r.summary = "" ∨ r.keywords = "" ∨ r.filename = "" ∨ r.title = ""))
    (hext : pySliceLast4 r.filename ≠ ".pdf") :
    process_file input_file_path output_dir cautious r sa da =
      [Event.upload input_file_path, Event.reportInvalid] := by
  simp only [process_file, if_neg h, if_pos hext]

/-- Trace shape of a valid, non-cautious run: the full success path. -/
theorem process_file_valid_plain (input_file_path output_dir : String)
    (r : PdfAiAnnotations) (sa da : String)
    (h : ¬ (r.summary = "" ∨ r.keywords = "" ∨ r.filename = "" ∨ r.title = ""))
    (hext : pySliceLast4 r.filename = ".pdf") :
    process_file input_file_path output_dir false r sa da =
      [Event.upload input_file_path,
       Event.openPdf input_file_path,
       Event.setMeta "dc:title" r.title,
       Event.setMeta "dc:description" r.summary,
       Event.setMeta "dc:subject" r.keywords,
       Event.save (os_path_join output_dir r.filename),
       Event.remove input_file_path] := by
  simp only [process_file, if_neg h, if_neg (not_not_intro hext)]
  simp

/-- Trace shape of a valid cautious run where the operator declines the
save confirmation. -/
theorem process_file_cautious_decline_save (input_file_path output_dir : String)
    (r : PdfAiAnnotations) (sa da : String)
    (h : ¬ (r.summary = "" ∨ r.keywords = "" ∨ r.filename = "" ∨ r.title = ""))
    (hext : pySliceLast4 r.filename = ".pdf")
    (hsa : confirms sa = false) :
    process_file input_file_path output_dir true r sa da =
      [Event.upload input_file_path,
       Event.openPdf input_file_path,
       Event.setMeta "dc:title" r.title,
       Event.setMeta "dc:description" r.summary,
       Event.setMeta "dc:subject" r.keywords,
       Event.askSave (os_path_join output_dir r.filename)] := by
  simp only [process_file, if_neg h, if_neg (not_not_intro hext)]
  simp [hsa]

/-- Trace shape of a valid cautious run where the operator confirms the
save but declines the delete confirmation. -/
theorem process_file_cautious_decline_delete (input_file_path output_dir : String)
    (r : PdfAiAnnotations) (sa da : String)
    (h : ¬ (r.summary = "" ∨ r.keywords = "" ∨ r.filename = "" ∨ r.title = ""))
    (hext : pySliceLast4 r.filename = ".pdf")
    (hsa : confirms sa = true) (hda : confirms da = false) :
    process_file input_file_path output_dir true r sa da =
      [Event.upload input_file_path,
       Event.openPdf input_file_path,
       Event.setMeta "dc:title" r.title,
       Event.setMeta "dc:description" r.summary,
       Event.setMeta "dc:subject" r.keywords,
       Event.askSave (os_path_join output_dir r.filename),
       Event.save (os_path_join output_dir r.filename),
       Event.askDelete input_file_path] := by
  simp only [process_file, if_neg h, if_neg (not_not_intro hext)]
  simp [hsa, hda]

/-- Trace shape of a valid cautious run where the operator confirms both
prompts. -/
theorem process_file_cautious_confirm_both (input_file_path output_dir : String)
    (r : PdfAiAnnotations) (sa da : String)
    (h : ¬ (r.summary = "" ∨ r.keywords = "" ∨ r.filename = "" ∨ r.title = ""))
    (hext : pySliceLast4 r.filename = ".pdf")
    (hsa : confirms sa = true) (hda : confirms da = true) :
    process_file input_file_path output_dir true r sa da =
      [Event.upload input_file_path,
       Event.openPdf input_file_path,
       Event.setMeta "dc:title" r.title,
       Event.setMeta "dc:description" r.summary,
       Event.setMeta "dc:subject" r.keywords,
       Event.askSave (os_path_join output_dir r.filename),
       Event.save (os_path_join output_dir r.filename),
       Event.askDelete input_file_path,
       Event.remove input_file_path] := by
  simp only [process_file, if_neg h, if_neg (not_not_intro hext)]
  simp [hsa, hda]

/-- C1: for every DocumentAnnotation with an empty `summary`, `keywords`,
`title` or `filename`, or whose filename does not end with `".pdf"`,
`process_file` reports invalid and returns having performed no filesystem
mutation: its whole trace is the upload followed by the error report — no
open of the source for mutation, no save, no delete. -/
theorem C1_invalid_zero_mutation (input_file_path output_dir : String)
    (cautious : Bool) (r : PdfAiAnnotations) (sa da : String)
    (h : r.summary = "" ∨ r.keywords = "" ∨ r.title = "" ∨ r.filename = "" ∨
      ¬ endsWithPdf r.filename) :
    process_file input_file_path output_dir cautious r sa da =
      [Event.upload input_file_path, Event.reportInvalid] := by
  by_cases hemp : r.summary = "" ∨ r.keywords = "" ∨ r.filename = "" ∨
      r.title = ""
  · exact process_file_empty_field _ _ _ _ _ _ hemp
  · have hext : ¬ endsWithPdf r.filename := by tauto
    refine process_file_bad_extension _ _ _ _ _ _ hemp (fun hc => ?_)
    exact hext ((pySliceLast4_eq_iff_endsWithPdf _).1 hc)

theorem C1_invalid_zero_mutation_witness :
    process_file "/in/doc.pdf" "/out" false
        ⟨"", "k", "t", "x.pdf"⟩ "" "" =
      [Event.upload "/in/doc.pdf", Event.reportInvalid] :=
  C1_invalid_zero_mutation "/in/doc.pdf" "/out" false
    ⟨"", "k", "t", "x.pdf"⟩ "" "" (Or.inl rfl)

/-- C2: the Validation Gate accepts — the run proceeds past validation and
opens the document — if and only if all four fields are non-empty and the
filename ends with the literal case-sensitive suffix `".pdf"`. -/
theorem C2_validation_gate_iff (input_file_path output_dir : String)
    (cautious : Bool) (r : PdfAiAnnotations) (sa da : String) :
    Event.openPdf input_file_path ∈
        process_file input_file_path output_dir cautious r sa da ↔
      specValid r := by
  by_cases hemp : r.summary = "" ∨ r.keywords = "" ∨ r.filename = "" ∨
      r.title = ""
  · rw [process_file_empty_field _ _ _ _ _ _ hemp, specValid_iff_checks]
    simp [hemp]
  · by_cases hext : pySliceLast4 r.filename = ".pdf"
    · rw [specValid_iff_checks]
      simp only [process_file, if_neg hemp, if_neg (not_not_intro hext)]
      simp [hemp, hext]
    · rw [process_file_bad_extension _ _ _ _ _ _ hemp hext,
        specValid_iff_checks]
      simp [hext]

/-- In a list of the form `l1 ++ save d :: l2` whose prefix `l1` holds no
remove event, any `take`-prefix containing the remove already contains the
save. -/
theorem save_mem_take_of_remove_mem_take {d p : String} {l1 l2 : List Event}
    (hno : Event.remove p ∉ l1) (n : Nat)
    (h : Event.remove p ∈ (l1 ++ Event.save d :: l2).take n) :
    Event.save d ∈ (l1 ++ Event.save d :: l2).take n := by
  rw [List.take_append_eq_append_take] at h ⊢
  rcases Nat.lt_or_ge l1.length n with hlt | hge
  · apply List.mem_append_right
    obtain ⟨k, hk⟩ : ∃ k, n - l1.length = k + 1 :=
      ⟨n - l1.length - 1, by omega⟩
    rw [hk, List.take_succ_cons]
    exact List.mem_cons_self _ _
  · exfalso
    have hz : n - l1.length = 0 := by omega
    rw [hz] at h
    simp only [List.take_zero, List.append_nil] at h
    exact hno (List.take_subset _ _ h)

/-- C3: the save strictly precedes the delete.  At every step count `n`, if
the trace observed so far contains the removal of the source, it already
contains the save to the destination path — the delete is never invoked
before the save has completed, and the reverse order never occurs. -/
theorem C3_save_precedes_remove (input_file_path output_dir : String)
    (cautious : Bool) (r : PdfAiAnnotations) (sa da : String) (n : Nat)
    (h : Event.remove input_file_path ∈
      (process_file input_file_path output_dir cautious r sa da).take n) :
    Event.save (os_path_join output_dir r.filename) ∈
      (process_file input_file_path output_dir cautious r sa da).take n := by
  have hmem : Event.remove input_file_path ∈
      process_file input_file_path output_dir cautious r sa da :=
    List.take_subset _ _ h
  by_cases hemp : r.summary = "" ∨ r.keywords = "" ∨ r.filename = "" ∨
      r.title = ""
  · rw [process_file_empty_field _ _ _ _ _ _ hemp] at hmem
    simp at hmem
  · by_cases hext : pySliceLast4 r.filename = ".pdf"
    · cases cautious with
      | false =>
        rw [process_file_valid_plain _ _ _ _ _ hemp hext] at h ⊢
        exact @save_mem_take_of_remove_mem_take
          (os_path_join output_dir r.filename) input_file_path
          [Event.upload input_file_path, Event.openPdf input_file_path,
           Event.setMeta "dc:title" r.title,
           Event.setMeta "dc:description" r.summary,
           Event.setMeta "dc:subject" r.keywords]
          [Event.remove input_file_path] (by simp) n h
      | true =>
        by_cases hsa : confirms sa = true
        · by_cases hda : confirms da = true
          · rw [process_file_cautious_confirm_both _ _ _ _ _ hemp hext hsa hda]
              at h ⊢
            exact @save_mem_take_of_remove_mem_take
              (os_path_join output_dir r.filename) input_file_path
              [Event.upload input_file_path, Event.openPdf input_file_path,
               Event.setMeta "dc:title" r.title,
               Event.setMeta "dc:description" r.summary,
               Event.setMeta "dc:subject" r.keywords,
               Event.askSave (os_path_join output_dir r.filename)]
              [Event.askDelete input_file_path,
               Event.remove input_file_path] (by simp) n h
          · rw [process_file_cautious_decline_delete _ _ _ _ _ hemp hext hsa
              (by simpa using hda)] at hmem
            simp at hmem
        · rw [process_file_cautious_decline_save _ _ _ _ _ hemp hext
            (by simpa using hsa)] at hmem
          simp at hmem
    · rw [process_file_bad_extension _ _ _ _ _ _ hemp hext] at hmem
      simp at hmem

theorem C3_save_precedes_remove_witness :
    Event.save (os_path_join "/out" "x.pdf") ∈
      (process_file "/in/a.pdf" "/out" false
        ⟨"s", "k", "t", "x.pdf"⟩ "" "").take 7 :=
  C3_save_precedes_remove "/in/a.pdf" "/out" false
    ⟨"s", "k", "t", "x.pdf"⟩ "" "" 7 (by decide)

/-- C4: cautious-mode declines.  For a valid annotation: declining the save
confirmation ends the run with no save and no delete performed (the trace
stops at the save prompt, so no destination file is created and the
original is untouched); affirming the save but declining the delete
confirmation ends the run right after the save with no delete performed
(destination created, original still present). -/
theorem C4_cautious_declines (input_file_path output_dir : String)
    (r : PdfAiAnnotations) (sa da : String) (hv : specValid r) :
    (confirms sa = false →
      process_file input_file_path output_dir true r sa da =
        [Event.upload input_file_path,
         Event.openPdf input_file_path,
         Event.setMeta "dc:title" r.title,
         Event.setMeta "dc:description" r.summary,
         Event.setMeta "dc:subject" r.keywords,
         Event.askSave (os_path_join output_dir r.filename)]) ∧
    (confirms sa = true → confirms da = false →
      process_file input_file_path output_dir true r sa da =
        [Event.upload input_file_path,
         Event.openPdf input_file_path,
         Event.setMeta "dc:title" r.title,
         Event.setMeta "dc:description" r.summary,
         Event.setMeta "dc:subject" r.keywords,
         Event.askSave (os_path_join output_dir r.filename),
         Event.save (os_path_join output_dir r.filename),
         Event.askDelete input_file_path]) := by
  obtain ⟨hemp, hext⟩ := (specValid_iff_checks r).1 hv
  exact ⟨fun hsa =>
      process_file_cautious_decline_save _ _ _ _ _ hemp hext hsa,
    fun hsa hda =>
      process_file_cautious_decline_delete _ _ _ _ _ hemp hext hsa hda⟩

theorem C4_cautious_declines_witness :
    process_file "/in/a.pdf" "/out" true ⟨"s", "k", "t", "x.pdf"⟩ "n" "" =
      [Event.upload "/in/a.pdf",
       Event.openPdf "/in/a.pdf",
       Event.setMeta "dc:title" "t",
       Event.setMeta "dc:description" "s",
       Event.setMeta "dc:subject" "k",
       Event.askSave (os_path_join "/out" "x.pdf")] ∧
    process_file "/in/a.pdf" "/out" true ⟨"s", "k", "t", "x.pdf"⟩ "y" "n" =
      [Event.upload "/in/a.pdf",
       Event.openPdf "/in/a.pdf",
       Event.setMeta "dc:title" "t",
       Event.setMeta "dc:description" "s",
       Event.setMeta "dc:subject" "k",
       Event.askSave (os_path_join "/out" "x.pdf"),
       Event.save (os_path_join "/out" "x.pdf"),
       Event.askDelete "/in/a.pdf"] :=
  ⟨(C4_cautious_declines "/in/a.pdf" "/out" ⟨"s", "k", "t", "x.pdf"⟩ "n" ""
      ⟨by decide, by decide, by decide, by decide, ⟨"x", by decide⟩⟩).1
      (by decide),
   (C4_cautious_declines "/in/a.pdf" "/out" ⟨"s", "k", "t", "x.pdf"⟩ "y" "n"
      ⟨by decide, by decide, by decide, by decide, ⟨"x", by decide⟩⟩).2
      (by decide) (by decide)⟩

/-- C5: with cautious mode disabled (the default) no confirmation prompt is
ever issued, and a valid annotation drives the run to the full success
trace: metadata applied, destination saved, original removed (the
Completed state). -/
theorem C5_non_cautious_full_success (input_file_path output_dir : String)
    (r : PdfAiAnnotations) (sa da : String) (hv : specValid r) :
    process_file input_file_path output_dir false r sa da =
      [Event.upload input_file_path,
       Event.openPdf input_file_path,
       Event.setMeta "dc:title" r.title,
       Event.setMeta "dc:description" r.summary,
       Event.setMeta "dc:subject" r.keywords,
       Event.save (os_path_join output_dir r.filename),
       Event.remove input_file_path] := by
  obtain ⟨hemp, hext⟩ := (specValid_iff_checks r).1 hv
  exact process_file_valid_plain _ _ _ _ _ hemp hext

theorem C5_non_cautious_full_success_witness :
    process_file "/in/a.pdf" "/out" false ⟨"s", "k", "t", "x.pdf"⟩ "" "" =
      [Event.upload "/in/a.pdf",
       Event.openPdf "/in/a.pdf",
       Event.setMeta "dc:title" "t",
       Event.setMeta "dc:description" "s",
       Event.setMeta "dc:subject" "k",
       Event.save (os_path_join "/out" "x.pdf"),
       Event.remove "/in/a.pdf"] :=
  C5_non_cautious_full_success "/in/a.pdf" "/out" ⟨"s", "k", "t", "x.pdf"⟩
    "" "" ⟨by decide, by decide, by decide, by decide, ⟨"x", by decide⟩⟩

/-- C9: an operator answer confirms exactly when it equals `"y"` after
stripping surrounding whitespace and lowercasing; any other answer —
including `"yes"` — declines, for the save prompt and the delete prompt
alike.  For a valid annotation in cautious mode: the save happens iff the
first answer normalizes to `"y"`, and the removal happens iff both answers
do; `"yes"` does not normalize to `"y"`. -/
theorem C9_confirmation_answer_semantics (input_file_path output_dir : String)
    (r : PdfAiAnnotations) (sa da : String) (hv : specValid r) :
    (Event.save (os_path_join output_dir r.filename) ∈
        process_file input_file_path output_dir true r sa da ↔
      pyLower (pyStrip sa) = "y") ∧
    (Event.remove input_file_path ∈
        process_file input_file_path output_dir true r sa da ↔
      (pyLower (pyStrip sa) = "y" ∧ pyLower (pyStrip da) = "y")) ∧
    pyLower (pyStrip "yes") ≠ "y" := by
  obtain ⟨hemp, hext⟩ := (specValid_iff_checks r).1 hv
  refine ⟨?_, ?_, by decide⟩ <;>
    by_cases hsa : confirms sa = true
  · by_cases hda : confirms da = true
    · rw [process_file_cautious_confirm_both _ _ _ _ _ hemp hext hsa hda]
      simp only [confirms, beq_iff_eq] at hsa
      simp [hsa]
    · rw [process_file_cautious_decline_delete _ _ _ _ _ hemp hext hsa
        (by simpa using hda)]
      simp only [confirms, beq_iff_eq] at hsa
      simp [hsa]
  · rw [process_file_cautious_decline_save _ _ _ _ _ hemp hext
      (by simpa using hsa)]
    simp only [confirms, beq_iff_eq] at hsa
    simp [hsa]
  · by_cases hda : confirms da = true
    · rw [process_file_cautious_confirm_both _ _ _ _ _ hemp hext hsa hda]
      simp only [confirms, beq_iff_eq] at hsa hda
      simp [hsa, hda]
    · rw [process_file_cautious_decline_delete _ _ _ _ _ hemp hext hsa
        (by simpa using hda)]
      simp only [confirms, beq_iff_eq] at hsa hda
      simp [hda]
  · rw [process_file_cautious_decline_save _ _ _ _ _ hemp hext
      (by simpa using hsa)]
    simp only [confirms, beq_iff_eq] at hsa
    simp [hsa]

theorem C9_confirmation_answer_semantics_witness :
    (Event.save (os_path_join "/out" "x.pdf") ∈
        process_file "/in/a.pdf" "/out" true ⟨"s", "k", "t", "x.pdf"⟩
          "y\x1c" "yes" ↔
      pyLower (pyStrip "y\x1c") = "y") ∧
    (Event.remove "/in/a.pdf" ∈
        process_file "/in/a.pdf" "/out" true ⟨"s", "k", "t", "x.pdf"⟩
          "y\x1c" "yes" ↔
      (pyLower (pyStrip "y\x1c") = "y" ∧ pyLower (pyStrip "yes") = "y")) ∧
    pyLower (pyStrip "yes") ≠ "y" :=
  C9_confirmation_answer_semantics "/in/a.pdf" "/out"
    ⟨"s", "k", "t", "x.pdf"⟩ "y\x1c" "yes"
    ⟨by decide, by decide, by decide, by decide, ⟨"x", by decide⟩⟩

/-- Outcome events of the intake loop in `main`: each file in a batch is
either processed or has its exception caught and logged
(`except Exception as e: print(...)`). -/
inductive LoopEvent where
  | processed (file : String)
  | errorLogged (file msg : String)
deriving DecidableEq, Repr

/-- One poll cycle's `for file_path in matching_files` body: attempt each
file; an exception is caught and logged, never propagated. -/
def intakeBatch (files : List String)
    (attempt : String → Except String Unit) : List LoopEvent :=
  files.map (fun f =>
    match attempt f with
    | Except.ok _ => LoopEvent.processed f
    | Except.error e => LoopEvent.errorLogged f e)

/-- Successive poll cycles of the `while True` loop, each with its own
snapshot of matching files. -/
def intakeCycles (batches : List (List String))
    (attempt : String → Except String Unit) : List LoopEvent :=
  (batches.map (fun files => intakeBatch files attempt)).flatten

/-- The file an intake outcome is about. -/
def attemptedFile : LoopEvent → String
  | LoopEvent.processed f => f
  | LoopEvent.errorLogged f _ => f

theorem attemptedFile_intakeBatch (files : List String)
    (attempt : String → Except String Unit) :
    (intakeBatch files attempt).map attemptedFile = files := by
  induction files with
  | nil => rfl
  | cons f rest ih =>
    simp only [intakeBatch, List.map_cons] at ih ⊢
    cases attempt f <;> simp [attemptedFile, ih]

/-- C6: loop resilience.  Every file of every poll cycle receives exactly
one outcome — processed, or error caught and logged — in order, so no
per-file exception prevents the rest of its batch or later cycles from
being attempted; moreover a batch decomposes around any file, showing a
failure at that file leaves the handling of the files before and after it
unchanged. -/
theorem C6_loop_resilience (batches : List (List String))
    (attempt : String → Except String Unit)
    (fs1 fs2 : List String) (f : String) :
    ((intakeCycles batches attempt).map attemptedFile = batches.flatten) ∧
    (intakeBatch (fs1 ++ f :: fs2) attempt =
      intakeBatch fs1 attempt ++ intakeBatch [f] attempt ++
        intakeBatch fs2 attempt) := by
  constructor
  · induction batches with
    | nil => rfl
    | cons fs rest ih =>
      simp only [intakeCycles] at ih
      simp only [intakeCycles, List.map_cons, List.flatten_cons,
        List.map_append, List.flatten_cons]
      rw [attemptedFile_intakeBatch, ih]
  · simp [intakeBatch]

/-- The document-metadata writes of a trace, in order. -/
def metaWrites (tr : List Event) : List (String × String) :=
  tr.filterMap (fun e =>
    match e with
    | Event.setMeta k v => some (k, v)
    | _ => none)

/-- The destination paths saved to in a trace, in order. -/
def savedPaths (tr : List Event) : List String :=
  tr.filterMap (fun e =>
    match e with
    | Event.save d => some d
    | _ => none)

/-- Shared shape fact: past validation, the metadata writes are exactly the
three Dublin Core fields and the saves are either none (cautious decline)
or exactly one to the joined destination path. -/
theorem metaWrites_savedPaths_process_file (input_file_path output_dir : String)
    (cautious : Bool) (r : PdfAiAnnotations) (sa da : String)
    (hemp : ¬ (r.summary = "" ∨ r.keywords = "" ∨ r.filename = "" ∨
      r.title = ""))
    (hext : pySliceLast4 r.filename = ".pdf") :
    metaWrites (process_file input_file_path output_dir cautious r sa da) =
      [("dc:title", r.title), ("dc:description", r.summary),
       ("dc:subject", r.keywords)] ∧
    (savedPaths (process_file input_file_path output_dir cautious r sa da) =
        [] ∨
      savedPaths (process_file input_file_path output_dir cautious r sa da) =
        [os_path_join output_dir r.filename]) := by
  cases cautious with
  | false =>
    rw [process_file_valid_plain _ _ _ _ _ hemp hext]
    exact ⟨by simp [metaWrites], Or.inr (by simp [savedPaths])⟩
  | true =>
    by_cases hsa : confirms sa = true
    · by_cases hda : confirms da = true
      · rw [process_file_cautious_confirm_both _ _ _ _ _ hemp hext hsa hda]
        exact ⟨by simp [metaWrites], Or.inr (by simp [savedPaths])⟩
      · rw [process_file_cautious_decline_delete _ _ _ _ _ hemp hext hsa
          (by simpa using hda)]
        exact ⟨by simp [metaWrites], Or.inr (by simp [savedPaths])⟩
    · rw [process_file_cautious_decline_save _ _ _ _ _ hemp hext
        (by simpa using hsa)]
      exact ⟨by simp [metaWrites], Or.inl (by simp [savedPaths])⟩

/-- C7: for every valid annotation, the Metadata Applier writes exactly the
three fields `dc:title`, `dc:description`, `dc:subject` with the
annotation's `title`, `summary`, `keywords`, and nothing else; and every
save that occurs targets exactly the join of the output directory with the
annotation's filename. -/
theorem C7_metadata_applier (input_file_path output_dir : String)
    (cautious : Bool) (r : PdfAiAnnotations) (sa da : String)
    (hv : specValid r) :
    metaWrites (process_file input_file_path output_dir cautious r sa da) =
      [("dc:title", r.title), ("dc:description", r.summary),
       ("dc:subject", r.keywords)] ∧
    (savedPaths (process_file input_file_path output_dir cautious r sa da) =
        [] ∨
      savedPaths (process_file input_file_path output_dir cautious r sa da) =
        [os_path_join output_dir r.filename]) := by
  obtain ⟨hemp, hext⟩ := (specValid_iff_checks r).1 hv
  exact metaWrites_savedPaths_process_file _ _ _ _ _ _ hemp hext

theorem C7_metadata_applier_witness :
    metaWrites (process_file "/in/a.pdf" "/out" false
        ⟨"s", "k", "t", "x.pdf"⟩ "" "") =
      [("dc:title", "t"), ("dc:description", "s"), ("dc:subject", "k")] ∧
    (savedPaths (process_file "/in/a.pdf" "/out" false
        ⟨"s", "k", "t", "x.pdf"⟩ "" "") = [] ∨
      savedPaths (process_file "/in/a.pdf" "/out" false
        ⟨"s", "k", "t", "x.pdf"⟩ "" "") = [os_path_join "/out" "x.pdf"]) :=
  C7_metadata_applier "/in/a.pdf" "/out" false ⟨"s", "k", "t", "x.pdf"⟩
    "" "" ⟨by decide, by decide, by decide, by decide, ⟨"x", by decide⟩⟩

/-- The two drafts diverge: for an annotation with all fields non-empty
whose filename does not end in `".pdf"`, the newer draft rejects with zero
filesystem effects while the older draft saves the file under the bad name
and deletes the original. -/
theorem C8_drafts_counterexample :
    process_file "/in/a.pdf" "/out" false
        ⟨"s", "k", "t", "x.txt"⟩ "" "" =
      [Event.upload "/in/a.pdf", Event.reportInvalid] ∧
    process_file_draft "/in/a.pdf" "/out" false
        ⟨"s", "k", "t", "x.txt"⟩ "" "" =
      [Event.upload "/in/a.pdf",
       Event.openPdf "/in/a.pdf",
       Event.setMeta "dc:title" "t",
       Event.setMeta "dc:description" "s",
       Event.setMeta "dc:subject" "k",
       Event.save "/out/x.txt",
       Event.remove "/in/a.pdf"] := by
  exact ⟨by decide, by decide⟩

/-- C8 (amended): the two drafts of `process_file` make the same validation
decision and perform the identical sequence of effects for every
annotation that has an empty field or whose filename ends with `".pdf"`;
they differ exactly on the remaining annotations (all fields non-empty,
filename without the `".pdf"` suffix), where only the newer draft's
extension check rejects. -/
theorem C8_drafts_agree_amended (input_file_path output_dir : String)
    (cautious : Bool) (r : PdfAiAnnotations) (sa da : String)
    (h : (r.summary = "" ∨ r.keywords = "" ∨ r.filename = "" ∨
        r.title = "") ∨ endsWithPdf r.filename) :
    process_file input_file_path output_dir cautious r sa da =
      process_file_draft input_file_path output_dir cautious r sa da := by
  rcases h with hemp | hext
  · simp only [process_file, process_file_draft, if_pos hemp]
  · have hslice : pySliceLast4 r.filename = ".pdf" :=
      (pySliceLast4_eq_iff_endsWithPdf _).2 hext
    by_cases hemp : r.summary = "" ∨ r.keywords = "" ∨ r.filename = "" ∨
        r.title = ""
    · simp only [process_file, process_file_draft, if_pos hemp]
    · simp only [process_file, process_file_draft, if_neg hemp,
        if_neg (not_not_intro hslice)]

theorem C8_drafts_agree_amended_witness :
    process_file "/in/a.pdf" "/out" false ⟨"s", "k", "t", "x.pdf"⟩ "" "" =
      process_file_draft "/in/a.pdf" "/out" false
        ⟨"s", "k", "t", "x.pdf"⟩ "" "" :=
  C8_drafts_agree_amended "/in/a.pdf" "/out" false ⟨"s", "k", "t", "x.pdf"⟩
    "" "" (Or.inr ⟨"x", by decide⟩)

/-- Does the proposed filename contain the path separator `/`? -/
def containsSlash (s : String) : Bool :=
  s.data.contains '/'

/-- Split a path on `/` (components of the path string). -/
def splitSlashAux : List Char → List Char → List String
  | cur, [] => [String.mk cur.reverse]
  | cur, '/' :: rest => String.mk cur.reverse :: splitSlashAux [] rest
  | cur, c :: rest => splitSlashAux (c :: cur) rest

def splitSlash (s : String) : List String :=
  splitSlashAux [] s.data

/-- Resolve `.`, `..` and empty components of an absolute path, keeping the
accumulated components in reverse order. -/
def normAux : List String → List String → List String
  | acc, [] => acc.reverse
  | acc, comp :: rest =>
    if comp = "" ∨ comp = "." then normAux acc rest
    else if comp = ".." then normAux (acc.drop 1) rest
    else normAux (comp :: acc) rest

/-- The resolved component list of an absolute path. -/
def normalizeAbs (p : String) : List String :=
  normAux [] (splitSlash p)

/-- A validated annotation whose filename contains a path separator but is
saved inside the configured output directory: with filename `"a/b.pdf"`
the save targets `"/out/a/b.pdf"`, whose resolved components extend those
of `"/out"` — the file lands within the output directory (in a
subdirectory), contradicting the claim that every such filename is written
outside it. -/
theorem C10_join_counterexample :
    containsSlash "a/b.pdf" = true ∧
    validationAccepts ⟨"s", "k", "t", "a/b.pdf"⟩ = true ∧
    savedPaths (process_file "/in/f.pdf" "/out" false
        ⟨"s", "k", "t", "a/b.pdf"⟩ "" "") = ["/out/a/b.pdf"] ∧
    normalizeAbs "/out/a/b.pdf" = normalizeAbs "/out" ++ ["a", "b.pdf"] := by
  exact ⟨by decide, by decide, by decide, by decide⟩

/-- C10 (amended): the destination is the unsanitized `os.path.join` of the
output directory with the AI-proposed filename — every save in the run
targets exactly that join, and no containment check is performed: when the
proposed filename is an absolute path, the join discards the output
directory entirely and the file is written to the proposed path itself. -/
theorem C10_unsanitized_join (input_file_path output_dir : String)
    (cautious : Bool) (r : PdfAiAnnotations) (sa da : String)
    (hv : validationAccepts r = true) :
    (savedPaths (process_file input_file_path output_dir cautious r sa da) =
        [] ∨
      savedPaths (process_file input_file_path output_dir cautious r sa da) =
        [os_path_join output_dir r.filename]) ∧
    (strStartsWithSlash r.filename = true →
      os_path_join output_dir r.filename = r.filename) := by
  have hchecks : ¬ (r.summary = "" ∨ r.keywords = "" ∨ r.filename = "" ∨
      r.title = "") ∧ pySliceLast4 r.filename = ".pdf" := by
    by_cases hemp : r.summary = "" ∨ r.keywords = "" ∨ r.filename = "" ∨
        r.title = ""
    · rw [validationAccepts, if_pos hemp] at hv
      exact absurd hv (by simp)
    · by_cases hext : pySliceLast4 r.filename = ".pdf"
      · exact ⟨hemp, hext⟩
      · rw [validationAccepts, if_neg hemp, if_pos hext] at hv
        exact absurd hv (by simp)
  constructor
  · exact (metaWrites_savedPaths_process_file input_file_path output_dir
      cautious r sa da hchecks.1 hchecks.2).2
  · intro habs
    simp only [os_path_join, if_pos habs]

theorem C10_unsanitized_join_witness :
    (savedPaths (process_file "/in/f.pdf" "/out" false
        ⟨"s", "k", "t", "/abs/x.pdf"⟩ "" "") = [] ∨
      savedPaths (process_file "/in/f.pdf" "/out" false
        ⟨"s", "k", "t", "/abs/x.pdf"⟩ "" "") =
        [os_path_join "/out" "/abs/x.pdf"]) ∧
    os_path_join "/out" "/abs/x.pdf" = "/abs/x.pdf" :=
  ⟨(C10_unsanitized_join "/in/f.pdf" "/out" false
      ⟨"s", "k", "t", "/abs/x.pdf"⟩ "" "" (by decide)).1,
   (C10_unsanitized_join "/in/f.pdf" "/out" false
      ⟨"s", "k", "t", "/abs/x.pdf"⟩ "" "" (by decide)).2 (by decide)⟩
